import Mathlib

/-!
Verification of the go-csv-merger utility (`main.go`).

The program merges every `.csv` file found under an input directory into a
single output file `extract_<date>.csv`, appending a `tick_nm` column that
carries each row's source filename with the extension removed, and then
archives the merged file together with the top-level input files into a
fresh timestamped subdirectory.

The embedding below is a faithful shallow translation of `processFiles`,
`archiveAndCleanup` and the sequencing in `main`.  Filesystem effects are
made explicit: the walk of the input directory becomes a list of walk
items (directories, files with their parse outcome, or walk errors), the
output CSV writer becomes a buffer that is flushed on every exit path
(mirroring the two `defer` statements), and each fallible OS call is
driven by an explicit failure oracle.
-/

namespace CsvMerger

/-- A CSV record: one row of string fields (Go: `[]string` from `encoding/csv`). -/
abbrev Record := List String

/-- Outcome of opening and fully parsing one candidate file
(Go: `os.Open` followed by `csv.NewReader(...).ReadAll()`). -/
inductive Parse where
  | openFail
  | readFail
  | ok (records : List Record)
  deriving DecidableEq

/-- One non-error item seen by the `filepath.Walk` callback:
its base name, full path, whether it is a directory, and the parse outcome
it would produce if opened. -/
structure Entry where
  name : String
  path : String
  isDir : Bool
  parse : Parse
  deriving DecidableEq

/-- An item of the directory walk: either a walk error (`walkErr != nil`)
or an entry. -/
inductive WalkItem where
  | err (msg : String)
  | entry (e : Entry)
  deriving DecidableEq

/-- Log lines produced by `processFiles` (only their identity matters). -/
inductive LogEvent where
  | startWalk
  | processing (name : String)
  | warnOpen (path : String)
  | warnRead (path : String)
  | infoSkip (name : String)
  | finished (count : Nat) (path : String)
  deriving DecidableEq

/-- Go `strings.ToLower` (character-wise; the names involved are ASCII). -/
def lowerStr (s : String) : String := String.mk (s.toList.map Char.toLower)

/-- Go `strings.HasSuffix`. -/
def strEndsWith (s suffix : String) : Bool := suffix.toList.isSuffixOf s.toList

/-- Go `filepath.Ext`: the suffix of the name starting at its final dot,
empty when the name has no dot.  (Walk entries carry base names, so path
separators do not occur in them.) -/
def fileExt (name : String) : String :=
  let r := name.toList.reverse
  let afterDot := r.takeWhile (fun c => c ≠ '.')
  if afterDot.length = r.length then "" else String.mk ('.' :: afterDot.reverse)

/-- Go `strings.TrimSuffix`. -/
def trimSuffix (s suffix : String) : String :=
  if strEndsWith s suffix then
    String.mk (s.toList.take (s.toList.length - suffix.toList.length))
  else s

/-- The candidate filter of `processFiles` (main.go line 105):
the lowercased name ends with ".csv". -/
def isCsvName (name : String) : Bool := strEndsWith (lowerStr name) ".csv"

/-- The ticker value appended to every data row (main.go line 108):
the filename with its extension trimmed. -/
def entityId (name : String) : String := trimSuffix name (fileExt name)

/-- State threaded through the walk callback of `processFiles`:
the `headerWritten` flag, the `filesProcessed` counter, the rows handed to
the csv writer (its buffer, flushed only by the deferred `Flush`), the
number of writer calls so far, and the log produced so far. -/
structure MergeState where
  headerWritten : Bool
  filesProcessed : Nat
  buffer : List Record
  writeCount : Nat
  log : List LogEvent
  deriving DecidableEq

/-- One `writer.Write(row)` call.  The oracle `wf` tells which write call
(by index) fails; a failed write returns `none`, a successful one buffers
the row. -/
def writeRec (wf : Nat → Bool) (row : Record) (s : MergeState) : Option MergeState :=
  if wf s.writeCount then none
  else some { s with buffer := s.buffer ++ [row], writeCount := s.writeCount + 1 }

/-- The data-row loop of `processFiles` (main.go lines 137-142): write each
record with the ticker appended; a failed write aborts with the row error. -/
def writeRows (wf : Nat → Bool) (ticker : String) :
    List Record → MergeState → MergeState × Option String
  | [], s => (s, none)
  | r :: rest, s =>
    match writeRec wf (r ++ [ticker]) s with
    | none => (s, some "failed to write row to output file")
    | some s1 => writeRows wf ticker rest s1

/-- The body of the walk callback for one entry (main.go lines 101-145).
Returns the updated state and `some msg` exactly when the callback returns
a non-nil error (which aborts the walk). -/
def processEntry (wf : Nat → Bool) (e : Entry) (s : MergeState) :
    MergeState × Option String :=
  if e.isDir then (s, none)
  else if isCsvName e.name then
    let s1 := { s with log := s.log ++ [LogEvent.processing e.name] }
    let ticker := entityId e.name
    match e.parse with
    | Parse.openFail => ({ s1 with log := s1.log ++ [LogEvent.warnOpen e.path] }, none)
    | Parse.readFail => ({ s1 with log := s1.log ++ [LogEvent.warnRead e.path] }, none)
    | Parse.ok records =>
      if records.length < 2 then
        ({ s1 with log := s1.log ++ [LogEvent.infoSkip e.name] }, none)
      else
        match (if s1.headerWritten then some s1 else
                (writeRec wf (records.headD [] ++ ["tick_nm"]) s1).map
                  (fun s2 => { s2 with headerWritten := true })) with
        | none => (s1, some "failed to write header to output file")
        | some s2 =>
          match writeRows wf ticker (records.drop 1) s2 with
          | (s3, some msg) => (s3, some msg)
          | (s3, none) => ({ s3 with filesProcessed := s3.filesProcessed + 1 }, none)
  else (s, none)

/-- Model of `filepath.Walk`: process the items in traversal order; a walk error or
a callback error aborts the walk, returning the state reached so far and
the error. -/
def walkFold (wf : Nat → Bool) : List WalkItem → MergeState → MergeState × Option String
  | [], s => (s, none)
  | WalkItem.err msg :: _, s => (s, some msg)
  | WalkItem.entry e :: rest, s =>
    match processEntry wf e s with
    | (s1, some msg) => (s1, some msg)
    | (s1, none) => walkFold wf rest s1

/-- The merged output path (main.go lines 83-84): `extract_<date>.csv`
under the output directory. -/
def outputFileName (datoutDir dateStr : String) : String :=
  datoutDir ++ "/extract_" ++ dateStr ++ ".csv"

/-- Observable outcome of `processFiles`: the value returned to the caller
(`(string, error)`), the on-disk content of the output file after the
deferred flush and close (`none` when it was never created), whether the
handle was closed, the log, and the final value of the internal
`filesProcessed` counter (which the code only logs). -/
structure MergeResult where
  ret : Except String String
  file : Option (List Record)
  fileClosed : Bool
  log : List LogEvent
  filesProcessed : Nat

/-- Model of `processFiles(datinDir, datoutDir)` (main.go lines 78-154).
`mkdirFails` and `createFails` drive the two fallible setup calls,
`wf` drives writer failures, `items` is the walk of `datinDir`, and
`prior` is the pre-existing content of the output path (`os.Create`
truncates it).  Both `defer`s run on every exit path after a successful
create: the writer is flushed, then the file closed. -/
def processFiles (datinDir datoutDir dateStr : String)
    (mkdirFails createFails : Bool) (wf : Nat → Bool)
    (items : List WalkItem) (prior : Option (List Record)) : MergeResult :=
  if mkdirFails then
    { ret := Except.error ("could not create output directory " ++ datoutDir),
      file := prior, fileClosed := false, log := [], filesProcessed := 0 }
  else
    let outputFile := outputFileName datoutDir dateStr
    if createFails then
      { ret := Except.error ("could not create output file " ++ outputFile),
        file := prior, fileClosed := false, log := [], filesProcessed := 0 }
    else
      let s0 : MergeState := ⟨false, 0, [], 0, [LogEvent.startWalk]⟩
      match walkFold wf items s0 with
      | (s, some msg) =>
        { ret := Except.error ("error during directory walk: " ++ msg),
          file := some s.buffer, fileClosed := true,
          log := s.log, filesProcessed := s.filesProcessed }
      | (s, none) =>
        { ret := Except.ok outputFile,
          file := some s.buffer, fileClosed := true,
          log := s.log ++ [LogEvent.finished s.filesProcessed outputFile],
          filesProcessed := s.filesProcessed }

/-! ### Specification-level views of the merge, derived from the source -/

/-- Whether an entry contributes rows: a non-directory `.csv` file that
parses successfully into at least 2 records; yields its name and records. -/
def entryGood (e : Entry) : Option (String × List Record) :=
  if e.isDir then none
  else if isCsvName e.name then
    match e.parse with
    | Parse.ok records => if records.length < 2 then none else some (e.name, records)
    | _ => none
  else none

/-- Whether a walk item contributes rows (walk errors never do). -/
def itemGood : WalkItem → Option (String × List Record)
  | WalkItem.err _ => none
  | WalkItem.entry e => entryGood e

/-- The contributing files of a walk, in traversal order. -/
def goodFiles (items : List WalkItem) : List (String × List Record) :=
  items.filterMap itemGood

/-- The data rows contributed by one file: every record after the first,
with the entity id appended as the final field. -/
def dataRowsOf (name : String) (records : List Record) : List Record :=
  (records.drop 1).map (fun r => r ++ [entityId name])

/-- Rows appended to the output by a sequence of contributing files,
given whether a header has already been written. -/
def mergeRows (headerWritten : Bool) : List (String × List Record) → List Record
  | [] => []
  | (name, records) :: rest =>
    (if headerWritten then [] else [records.headD [] ++ ["tick_nm"]]) ++
      dataRowsOf name records ++ mergeRows true rest

/-- All data rows of the whole run (no header). -/
def allDataRows (items : List WalkItem) : List Record :=
  (goodFiles items).flatMap (fun p => dataRowsOf p.1 p.2)

/-- The complete expected output content of a run that hits no failures. -/
def mergeOutput (items : List WalkItem) : List Record :=
  mergeRows false (goodFiles items)

/-- Log lines of an entry that contributes no rows. -/
def entrySkipLog (e : Entry) : List LogEvent :=
  if e.isDir then []
  else if isCsvName e.name then
    match e.parse with
    | Parse.openFail => [LogEvent.processing e.name, LogEvent.warnOpen e.path]
    | Parse.readFail => [LogEvent.processing e.name, LogEvent.warnRead e.path]
    | Parse.ok records =>
      if records.length < 2 then [LogEvent.processing e.name, LogEvent.infoSkip e.name]
      else []
  else []

/-- Log lines of one entry in a failure-free run. -/
def entryLog (e : Entry) : List LogEvent :=
  if (entryGood e).isSome then [LogEvent.processing e.name] else entrySkipLog e

/-- Log lines of one walk item in a failure-free run. -/
def itemLog : WalkItem → List LogEvent
  | WalkItem.err _ => []
  | WalkItem.entry e => entryLog e

/-- True when the walk itself produces no error item. -/
def itemOk : WalkItem → Bool
  | WalkItem.err _ => false
  | WalkItem.entry _ => true

/-- True when no item of the walk is a walk error. -/
def noErrItems (items : List WalkItem) : Bool := items.all itemOk

/-- Number of writer calls a sequence of contributing files performs,
given whether a header has already been written. -/
def writeCountOf (headerWritten : Bool) : List (String × List Record) → Nat
  | [] => 0
  | (_, records) :: rest =>
    (if headerWritten then 0 else 1) + (records.length - 1) + writeCountOf true rest

/-- A candidate file that fails to open or parse (skipped with a warning). -/
def failingItem : WalkItem → Bool
  | WalkItem.err _ => false
  | WalkItem.entry e =>
    !e.isDir && isCsvName e.name &&
      (match e.parse with
       | Parse.openFail => true
       | Parse.readFail => true
       | Parse.ok _ => false)

/-! ### The archive stage (`archiveAndCleanup`) and the `main` sequencing -/

/-- Go `filepath.Base` for the paths this program builds: the final
component after the last slash. -/
def baseName (p : String) : String :=
  String.mk ((p.toList.reverse.takeWhile (fun c => c ≠ '/')).reverse)

/-- A top-level entry of the input directory as seen by `os.ReadDir`. -/
structure DirEntry where
  name : String
  isDir : Bool
  deriving DecidableEq

/-- A filesystem mutation performed by the archive stage, in order. -/
inductive ArchEvent where
  | mkArchiveDir (path : String)
  | moveMerged (src dst : String)
  | moveSource (src dst : String)
  deriving DecidableEq

/-- Observable outcome of `archiveAndCleanup`: the returned error value,
the mutations performed in order, the warnings for source files whose move
failed (those files stay in the input root), and the names of the source
files actually moved. -/
structure ArchiveResult where
  ret : Except String Unit
  events : List ArchEvent
  warnings : List String
  movedSources : List String

/-- The timestamped archive subdirectory path (main.go line 158). -/
def archiveSubDir (archDir ts : String) : String :=
  archDir ++ "/archive_" ++ ts

/-- The per-entry loop of `archiveAndCleanup` (main.go lines 177-185):
attempt to move each non-directory top-level entry; a failed move only
produces a warning.  Returns (events, warnings, moved names) in order. -/
def archiveSources (datinDir subDir : String) (renameFails : String → Bool) :
    List DirEntry → List ArchEvent × List String × List String
  | [] => ([], [], [])
  | e :: rest =>
    let (evs, warns, moved) := archiveSources datinDir subDir renameFails rest
    if e.isDir then (evs, warns, moved)
    else if renameFails e.name then
      (evs, (datinDir ++ "/" ++ e.name) :: warns, moved)
    else
      (ArchEvent.moveSource (datinDir ++ "/" ++ e.name) (subDir ++ "/" ++ e.name) :: evs,
       warns, e.name :: moved)

/-- Model of `archiveAndCleanup(archDir, mergedFilePath, datinDir)` (main.go lines
157-189).  `mkdirFails`, `renameMergedFails` and `readDirFails` drive the
fallible calls, `topEntries` is what `os.ReadDir(datinDir)` returns, and
`renameFails` tells which individual source-file moves fail. -/
def archiveAndCleanup (archDir mergedFilePath datinDir ts : String)
    (mkdirFails renameMergedFails readDirFails : Bool)
    (topEntries : List DirEntry) (renameFails : String → Bool) : ArchiveResult :=
  let subDir := archiveSubDir archDir ts
  if mkdirFails then
    { ret := Except.error ("could not create archive subdirectory " ++ subDir),
      events := [], warnings := [], movedSources := [] }
  else
    let newMergedPath := subDir ++ "/" ++ baseName mergedFilePath
    if renameMergedFails then
      { ret := Except.error "failed to archive merged file",
        events := [ArchEvent.mkArchiveDir subDir], warnings := [], movedSources := [] }
    else if readDirFails then
      { ret := Except.error ("could not read datin directory " ++ datinDir ++ " for archiving"),
        events := [ArchEvent.mkArchiveDir subDir,
                   ArchEvent.moveMerged mergedFilePath newMergedPath],
        warnings := [], movedSources := [] }
    else
      let (evs, warns, moved) := archiveSources datinDir subDir renameFails topEntries
      { ret := Except.ok (),
        events := ArchEvent.mkArchiveDir subDir ::
                  ArchEvent.moveMerged mergedFilePath newMergedPath :: evs,
        warnings := warns, movedSources := moved }

/-- Observable outcome of one whole run of `main` after setup: the merge
outcome, the archive outcome (`none` when archiving never started), and
the top-level contents of the input root after the run. -/
structure RunResult where
  merge : MergeResult
  archive : Option ArchiveResult
  inputRootAfter : List DirEntry

/-- The merge-then-archive sequencing of `main` (main.go lines 44-52):
a fatal merge error ends the process before archiving; on merge success
the archive stage runs on the returned output path.  The input root's
top-level contents change only by the moves the archive stage performs. -/
def mainRun (datinDir datoutDir archDir dateStr ts : String)
    (mkdirOutFails createFails : Bool) (wf : Nat → Bool)
    (items : List WalkItem) (prior : Option (List Record))
    (archMkdirFails renameMergedFails readDirFails : Bool)
    (topEntries : List DirEntry) (renameFails : String → Bool) : RunResult :=
  let m := processFiles datinDir datoutDir dateStr mkdirOutFails createFails wf items prior
  match m.ret with
  | Except.error _ => { merge := m, archive := none, inputRootAfter := topEntries }
  | Except.ok outPath =>
    let a := archiveAndCleanup archDir outPath datinDir ts
      archMkdirFails renameMergedFails readDirFails topEntries renameFails
    { merge := m, archive := some a,
      inputRootAfter := topEntries.filter (fun e => !(a.movedSources.contains e.name)) }

/-! ### Concrete fixtures (the spec's sample scenario, plus degenerate files) -/

/-- The sample header row `date,price`. -/
def sampleHeader : Record := ["date", "price"]

/-- Sample source file `AAPL.csv` with one data row. -/
def aaplEntry : Entry :=
  ⟨"AAPL.csv", "in/AAPL.csv", false, Parse.ok [sampleHeader, ["2020-01-01", "100"]]⟩

/-- Sample source file `MSFT.csv` with one data row. -/
def msftEntry : Entry :=
  ⟨"MSFT.csv", "in/MSFT.csv", false, Parse.ok [sampleHeader, ["2020-01-02", "200"]]⟩

/-- A header-only file: parses to a single record. -/
def headerOnlyEntry : Entry := ⟨"HDR.csv", "in/HDR.csv", false, Parse.ok [sampleHeader]⟩

/-- A candidate file whose CSV contents fail to parse. -/
def badEntry : Entry := ⟨"BAD.csv", "in/BAD.csv", false, Parse.readFail⟩

/-- The walked input root directory itself. -/
def rootDirEntry : Entry := ⟨"in", "in", true, Parse.ok []⟩

/-- A sample walk: the root, a header-only file, an unparsable file, and
two contributing files. -/
def sampleItems : List WalkItem :=
  [WalkItem.entry rootDirEntry, WalkItem.entry headerOnlyEntry,
   WalkItem.entry badEntry, WalkItem.entry aaplEntry, WalkItem.entry msftEntry]

/-- The writer-failure oracle of a healthy run: no write ever fails. -/
def noWriteFail : Nat → Bool := fun _ => false

/-- A writer that fails on its very first call. -/
def firstWriteFails : Nat → Bool := fun n => n == 0

/-! ### Characterization of failure-free runs -/

/-- With no writer failures, the row loop buffers every record with the
ticker appended and reports no error. -/
theorem writeRows_noFail (wf : Nat → Bool) (hnf : ∀ n, wf n = false) (t : String) :
    ∀ (rows : List Record) (s : MergeState),
      writeRows wf t rows s =
        ({ s with buffer := s.buffer ++ rows.map (fun r => r ++ [t]),
                  writeCount := s.writeCount + rows.length }, none) := by
  intro rows
  induction rows with
  | nil => intro s; simp [writeRows]
  | cons r rest ih =>
    intro s
    obtain ⟨hw, fp, buf, wc, lg⟩ := s
    simp [writeRows, writeRec, hnf, ih, List.append_assoc]
    omega

/-- With no writer failures, processing one entry reports no error and
updates the state exactly as `entryGood` dictates: a non-contributing
entry only logs, a contributing one sets the header flag, bumps the file
counter and buffers its (header and) data rows. -/
theorem processEntry_noFail (wf : Nat → Bool) (hnf : ∀ n, wf n = false)
    (e : Entry) (s : MergeState) :
    processEntry wf e s =
      (match entryGood e with
       | none => ({ s with log := s.log ++ entrySkipLog e }, none)
       | some (n, rs) =>
         ({ headerWritten := true,
            filesProcessed := s.filesProcessed + 1,
            buffer := s.buffer ++
              (if s.headerWritten then [] else [rs.headD [] ++ ["tick_nm"]]) ++
              dataRowsOf n rs,
            writeCount := s.writeCount + (if s.headerWritten then 0 else 1) + (rs.length - 1),
            log := s.log ++ [LogEvent.processing e.name] }, none)) := by
  obtain ⟨nm, pth, d, pr⟩ := e
  obtain ⟨hw, fp, buf, wc, lg⟩ := s
  cases d with
  | true => simp [processEntry, entryGood, entrySkipLog]
  | false =>
    by_cases hc : isCsvName nm
    · cases pr with
      | openFail => simp [processEntry, entryGood, entrySkipLog, hc]
      | readFail => simp [processEntry, entryGood, entrySkipLog, hc]
      | ok rs =>
        by_cases hl : rs.length < 2
        · simp [processEntry, entryGood, entrySkipLog, hc, hl]
        · cases hw with
          | false =>
            simp [processEntry, entryGood, hc, hl, writeRec, hnf,
              writeRows_noFail wf hnf, dataRowsOf, entityId, List.append_assoc]
          | true =>
            simp [processEntry, entryGood, hc, hl,
              writeRows_noFail wf hnf, dataRowsOf, entityId, List.append_assoc]
    · simp [processEntry, entryGood, entrySkipLog, hc]

/-- With no writer failures and no walk errors, the whole walk reports no
error and its final state is determined by the contributing files. -/
theorem walkFold_noFail (wf : Nat → Bool) (hnf : ∀ n, wf n = false) :
    ∀ (items : List WalkItem) (s : MergeState), noErrItems items = true →
      walkFold wf items s =
        ({ headerWritten := s.headerWritten || !(goodFiles items).isEmpty,
           filesProcessed := s.filesProcessed + (goodFiles items).length,
           buffer := s.buffer ++ mergeRows s.headerWritten (goodFiles items),
           writeCount := s.writeCount + writeCountOf s.headerWritten (goodFiles items),
           log := s.log ++ items.flatMap itemLog }, none) := by
  intro items
  induction items with
  | nil => intro s h; simp [walkFold, goodFiles, mergeRows, writeCountOf]
  | cons it rest ih =>
    intro s h
    cases it with
    | err m => simp [noErrItems, itemOk] at h
    | entry e =>
      have h' : noErrItems rest = true := by
        simpa [noErrItems, itemOk] using h
      obtain ⟨hw, fp, buf, wc, lg⟩ := s
      rw [walkFold, processEntry_noFail wf hnf]
      cases hg : entryGood e with
      | none =>
        simp only []
        rw [ih _ h']
        simp [goodFiles, itemGood, List.filterMap_cons, hg, itemLog, entryLog,
          List.append_assoc]
      | some p =>
        obtain ⟨n, rs⟩ := p
        simp only []
        rw [ih _ h']
        cases hw with
        | false =>
          simp [goodFiles, itemGood, List.filterMap_cons, hg, itemLog, entryLog,
            mergeRows, writeCountOf, List.append_assoc]
          omega
        | true =>
          simp [goodFiles, itemGood, List.filterMap_cons, hg, itemLog, entryLog,
            mergeRows, writeCountOf, List.append_assoc]
          omega

/-- A failure-free merge run: it succeeds with the output path, writes
exactly `mergeOutput items` to the (flushed and closed) output file, and
counts the contributing files. -/
theorem processFiles_noFail (datinDir datoutDir dateStr : String)
    (wf : Nat → Bool) (hnf : ∀ n, wf n = false)
    (items : List WalkItem) (h : noErrItems items = true)
    (prior : Option (List Record)) :
    processFiles datinDir datoutDir dateStr false false wf items prior =
      { ret := Except.ok (outputFileName datoutDir dateStr),
        file := some (mergeOutput items),
        fileClosed := true,
        log := LogEvent.startWalk :: items.flatMap itemLog ++
          [LogEvent.finished (goodFiles items).length (outputFileName datoutDir dateStr)],
        filesProcessed := (goodFiles items).length } := by
  rw [processFiles]
  simp only [Bool.false_eq_true, if_false]
  rw [walkFold_noFail wf hnf items _ h]
  simp [mergeOutput]

/-- After the first contributing file, the remaining contributing files
add exactly their data rows. -/
theorem mergeRows_true (gs : List (String × List Record)) :
    mergeRows true gs = gs.flatMap (fun p => dataRowsOf p.1 p.2) := by
  induction gs with
  | nil => simp [mergeRows]
  | cons g rest ih => obtain ⟨n, rs⟩ := g; simp [mergeRows, ih]

/-- The output of a run with at least one contributing file is the first
contributor's header row (with `tick_nm` appended) followed by every
contributor's data rows. -/
theorem mergeRows_false_cons (n : String) (rs : List Record)
    (rest : List (String × List Record)) :
    mergeRows false ((n, rs) :: rest) =
      (rs.headD [] ++ ["tick_nm"]) ::
        ((n, rs) :: rest).flatMap (fun p => dataRowsOf p.1 p.2) := by
  simp [mergeRows, mergeRows_true, dataRowsOf]

/-- The total number of data rows contributed is the sum over the
contributing files of (record count − 1). -/
theorem length_flatMap_dataRows (gs : List (String × List Record)) :
    (gs.flatMap (fun p => dataRowsOf p.1 p.2)).length =
      (gs.map (fun p => p.2.length - 1)).sum := by
  induction gs with
  | nil => simp
  | cons g rest ih =>
    obtain ⟨n, rs⟩ := g
    rw [List.flatMap_cons, List.length_append, ih, List.map_cons, List.sum_cons]
    simp [dataRowsOf]

/-- A file that fails to open or parse contributes nothing. -/
theorem itemGood_eq_none_of_failing (it : WalkItem) (hf : failingItem it = true) :
    itemGood it = none := by
  cases it with
  | err m => rfl
  | entry e =>
    obtain ⟨nm, pth, d, pr⟩ := e
    cases pr with
    | openFail =>
      simp [failingItem] at hf
      simp [itemGood, entryGood, hf.1, hf.2]
    | readFail =>
      simp [failingItem] at hf
      simp [itemGood, entryGood, hf.1, hf.2]
    | ok rs => simp [failingItem] at hf

/-- Files that fail to open or parse do not affect the contributing files:
dropping them from the walk leaves the merged content unchanged. -/
theorem goodFiles_filter_failing (items : List WalkItem) :
    goodFiles (items.filter (fun it => !failingItem it)) = goodFiles items := by
  simp only [goodFiles]
  induction items with
  | nil => rfl
  | cons it rest ih =>
    by_cases hf : failingItem it = true
    · simp [List.filter_cons, hf, List.filterMap_cons,
        itemGood_eq_none_of_failing it hf, ih]
    · rw [List.filter_cons, if_pos (by simp [hf])]
      cases hi : itemGood it <;> simp [List.filterMap_cons, hi, ih]

/-- An entry that contributes no rows never calls the writer, whatever the
writer-failure oracle: it only logs and continues. -/
theorem processEntry_notGood (wf : Nat → Bool) (e : Entry) (s : MergeState)
    (hg : entryGood e = none) :
    processEntry wf e s = ({ s with log := s.log ++ entrySkipLog e }, none) := by
  obtain ⟨nm, pth, d, pr⟩ := e
  cases d with
  | true => simp [processEntry, entrySkipLog]
  | false =>
    by_cases hc : isCsvName nm
    · cases pr with
      | openFail => simp [processEntry, entrySkipLog, hc]
      | readFail => simp [processEntry, entrySkipLog, hc]
      | ok recs =>
        have hl : recs.length < 2 := by
          by_contra hl
          simp [entryGood, hc, hl] at hg
        simp [processEntry, entrySkipLog, hc, hl]
    · simp [processEntry, entrySkipLog, hc]

/-- If the first writer call fails and some file contributes rows, the walk
aborts with the header-write error. -/
theorem walkFold_firstWriteFails (wf : Nat → Bool) :
    ∀ (items : List WalkItem) (s : MergeState),
      noErrItems items = true → goodFiles items ≠ [] →
      s.headerWritten = false → wf s.writeCount = true →
      ∃ s1, walkFold wf items s = (s1, some "failed to write header to output file") := by
  intro items
  induction items with
  | nil => intro s _ hg _ _; simp [goodFiles] at hg
  | cons it rest ih =>
    intro s h hg hh hw
    cases it with
    | err m => simp [noErrItems, itemOk] at h
    | entry e =>
      have h' : noErrItems rest = true := by simpa [noErrItems, itemOk] using h
      cases hge : entryGood e with
      | none =>
        rw [walkFold, processEntry_notGood wf e s hge]
        have hg' : goodFiles rest ≠ [] := by
          simpa [goodFiles, List.filterMap_cons, itemGood, hge] using hg
        exact ih _ h' hg' hh hw
      | some p =>
        obtain ⟨n, rs⟩ := p
        obtain ⟨nm, pth, d, pr⟩ := e
        cases d with
        | true => simp [entryGood] at hge
        | false =>
          by_cases hc : isCsvName nm
          · cases pr with
            | openFail => simp [entryGood, hc] at hge
            | readFail => simp [entryGood, hc] at hge
            | ok recs =>
              by_cases hl : recs.length < 2
              · simp [entryGood, hc, hl] at hge
              · obtain ⟨hwb, fp, buf, wc, lg⟩ := s
                simp only [MergeState.headerWritten] at hh
                subst hh
                simp only [MergeState.writeCount] at hw
                refine ⟨⟨false, fp, buf, wc, lg ++ [LogEvent.processing nm]⟩, ?_⟩
                rw [walkFold]
                simp [processEntry, hc, hl, writeRec, hw]
          · simp [entryGood, hc] at hge

/-! ### The claims -/

/-- C1 counterexample: over the set consisting of a single header-only
source file, the merged output has 0 data rows (equal to the sum, which is
empty) but NO header row at all — the output file is completely empty —
whereas the claim promises exactly one header row for every run. -/
theorem c1_counterexample :
    (processFiles "in" "out" "20250101" false false noWriteFail
        [WalkItem.entry headerOnlyEntry] none).file = some [] ∧
    ¬ ∃ hdr rows,
        (processFiles "in" "out" "20250101" false false noWriteFail
            [WalkItem.entry headerOnlyEntry] none).file = some (hdr :: rows) := by
  have hfile : (processFiles "in" "out" "20250101" false false noWriteFail
      [WalkItem.entry headerOnlyEntry] none).file = some [] := by decide
  refine ⟨hfile, ?_⟩
  rintro ⟨hdr, rows, hcons⟩
  rw [hfile] at hcons
  simp at hcons

/-- C1 (amended): in a failure-free run the total data-row count equals
the sum, over the successfully parsed files with at least 2 records, of
(record count − 1); files with fewer than 2 records contribute zero rows.
The output additionally has exactly one header row provided at least one
file qualifies; when none does, the output is completely empty (no header
row). -/
theorem c1_row_count_conservation (datinDir datoutDir dateStr : String)
    (wf : Nat → Bool) (hnf : ∀ n, wf n = false)
    (items : List WalkItem) (h : noErrItems items = true)
    (prior : Option (List Record)) :
    (goodFiles items = [] →
      (processFiles datinDir datoutDir dateStr false false wf items prior).file = some []) ∧
    (goodFiles items ≠ [] →
      ∃ hdr rows,
        (processFiles datinDir datoutDir dateStr false false wf items prior).file =
          some (hdr :: rows) ∧
        rows.length = ((goodFiles items).map (fun p => p.2.length - 1)).sum) := by
  rw [processFiles_noFail datinDir datoutDir dateStr wf hnf items h prior]
  constructor
  · intro hg
    simp [mergeOutput, hg, mergeRows]
  · intro hg
    cases hgs : goodFiles items with
    | nil => exact absurd hgs hg
    | cons g rest =>
      obtain ⟨n, rs⟩ := g
      refine ⟨rs.headD [] ++ ["tick_nm"],
        ((n, rs) :: rest).flatMap (fun p => dataRowsOf p.1 p.2), ?_, ?_⟩
      · simp [mergeOutput, hgs, mergeRows_false_cons]
      · rw [length_flatMap_dataRows]

/-- C1 witness: on the sample walk (one header-only file, one unparsable
file, two contributing files with one data row each) the output is a
header row followed by 2 = (2−1)+(2−1) data rows. -/
theorem c1_row_count_conservation_witness :
    ∃ hdr rows,
      (processFiles "in" "out" "20250101" false false noWriteFail sampleItems none).file =
        some (hdr :: rows) ∧
      rows.length = ((goodFiles sampleItems).map (fun p => p.2.length - 1)).sum :=
  (c1_row_count_conservation "in" "out" "20250101" noWriteFail (fun _ => rfl)
    sampleItems (by decide) none).2 (by decide)

/-- C2: in a failure-free run, every data row of the merged output is some
record (after the first) of a contributing source file, unchanged, with
that file's name minus its extension appended as the final field. -/
theorem c2_provenance_field (datinDir datoutDir dateStr : String)
    (wf : Nat → Bool) (hnf : ∀ n, wf n = false)
    (items : List WalkItem) (h : noErrItems items = true)
    (prior : Option (List Record)) :
    ∀ row ∈ (((processFiles datinDir datoutDir dateStr false false wf items prior).file.getD
        []).drop 1),
      ∃ name records r,
        (name, records) ∈ goodFiles items ∧ r ∈ records.drop 1 ∧
        row = r ++ [trimSuffix name (fileExt name)] := by
  rw [processFiles_noFail datinDir datoutDir dateStr wf hnf items h prior]
  intro row hrow
  simp only [mergeOutput, Option.getD_some] at hrow
  cases hgs : goodFiles items with
  | nil => rw [hgs] at hrow; simp [mergeRows] at hrow
  | cons g rest =>
    obtain ⟨n, rs⟩ := g
    rw [hgs, mergeRows_false_cons, List.drop_succ_cons, List.drop_zero] at hrow
    obtain ⟨⟨name, records⟩, hmem, hr⟩ := List.mem_flatMap.mp hrow
    rw [dataRowsOf] at hr
    obtain ⟨r, hrmem, hre⟩ := List.mem_map.mp hr
    exact ⟨name, records, r, hmem, hrmem, by rw [← hre]; rfl⟩

/-- C2 witness: in the sample run the row `2020-01-01,100,AAPL` is the
`AAPL.csv` record `2020-01-01,100` with `AAPL` (the filename minus its
extension) appended. -/
theorem c2_provenance_field_witness :
    ∃ name records r,
      (name, records) ∈ goodFiles sampleItems ∧ r ∈ records.drop 1 ∧
      (["2020-01-01", "100", "AAPL"] : Record) = r ++ [trimSuffix name (fileExt name)] :=
  c2_provenance_field "in" "out" "20250101" noWriteFail (fun _ => rfl)
    sampleItems (by decide) none ["2020-01-01", "100", "AAPL"] (by decide)

/-- C5: in a failure-free run with at least one contributing file, the
output is exactly the first record of the first successfully parsed file
with at least 2 records, with the single field `tick_nm` appended, written
once as the only header row, followed by all data rows; files with fewer
than 2 records parsed earlier (like any non-contributing item) never
determine the header. -/
theorem c5_header_selection (datinDir datoutDir dateStr : String)
    (wf : Nat → Bool) (hnf : ∀ n, wf n = false)
    (items : List WalkItem) (h : noErrItems items = true)
    (prior : Option (List Record))
    (n : String) (rs : List Record) (rest : List (String × List Record))
    (hgs : goodFiles items = (n, rs) :: rest) :
    (processFiles datinDir datoutDir dateStr false false wf items prior).file =
      some ((rs.headD [] ++ ["tick_nm"]) :: allDataRows items) := by
  rw [processFiles_noFail datinDir datoutDir dateStr wf hnf items h prior]
  simp [mergeOutput, hgs, mergeRows_false_cons, allDataRows]

/-- C5 witness: in the sample run — where a header-only file and an
unparsable file precede `AAPL.csv` — the header is the first record of
`AAPL.csv` with `tick_nm` appended, written once. -/
theorem c5_header_selection_witness :
    (processFiles "in" "out" "20250101" false false noWriteFail sampleItems none).file =
      some ((["date", "price", "tick_nm"] : Record) :: allDataRows sampleItems) :=
  c5_header_selection "in" "out" "20250101" noWriteFail (fun _ => rfl)
    sampleItems (by decide) none "AAPL.csv" [sampleHeader, ["2020-01-01", "100"]]
    [("MSFT.csv", [sampleHeader, ["2020-01-02", "200"]])] (by decide)

/-- C3: whenever the merge stage returns a fatal error, the archive stage
is never entered — no archive outcome exists (no archive subdirectory is
created, nothing is moved) and the input root's top-level contents after
the run are exactly what they were before. -/
theorem c3_no_archive_after_merge_failure
    (datinDir datoutDir archDir dateStr ts : String)
    (mkdirOutFails createFails : Bool) (wf : Nat → Bool)
    (items : List WalkItem) (prior : Option (List Record))
    (archMkdirFails renameMergedFails readDirFails : Bool)
    (topEntries : List DirEntry) (renameFails : String → Bool)
    (msg : String)
    (hm : (processFiles datinDir datoutDir dateStr mkdirOutFails createFails
        wf items prior).ret = Except.error msg) :
    (mainRun datinDir datoutDir archDir dateStr ts mkdirOutFails createFails wf items prior
        archMkdirFails renameMergedFails readDirFails topEntries renameFails).archive =
      none ∧
    (mainRun datinDir datoutDir archDir dateStr ts mkdirOutFails createFails wf items prior
        archMkdirFails renameMergedFails readDirFails topEntries renameFails).inputRootAfter =
      topEntries := by
  simp [mainRun, hm]

/-- C3 witness: when the output file cannot be created the merge fails,
no archive outcome exists and the input root is untouched. -/
theorem c3_no_archive_after_merge_failure_witness :
    (mainRun "in" "out" "arch" "20250101" "20250101_120000" false true noWriteFail
        sampleItems none false false false [⟨"AAPL.csv", false⟩] (fun _ => false)).archive =
      none ∧
    (mainRun "in" "out" "arch" "20250101" "20250101_120000" false true noWriteFail
        sampleItems none false false false [⟨"AAPL.csv", false⟩] (fun _ => false)).inputRootAfter =
      [⟨"AAPL.csv", false⟩] :=
  c3_no_archive_after_merge_failure "in" "out" "arch" "20250101" "20250101_120000"
    false true noWriteFail sampleItems none false false false [⟨"AAPL.csv", false⟩]
    (fun _ => false) "could not create output file out/extract_20250101.csv" rfl

/-- C4: with the output file created, (a) the writer is flushed and the
handle closed on every exit path — the on-disk file always holds exactly
the successfully written rows, even when the run aborts; (b) any error
that aborts the walk (in particular a failed write) makes `processFiles`
return a fatal error, and an error-free walk returns success; (c) if the
very first writer call fails and some file contributes rows, the run
aborts with the header-write error. -/
theorem c4_write_error_fatal_flush_on_every_exit
    (datinDir datoutDir dateStr : String) (wf : Nat → Bool)
    (items : List WalkItem) (prior : Option (List Record)) :
    (processFiles datinDir datoutDir dateStr false false wf items prior).fileClosed = true ∧
    (processFiles datinDir datoutDir dateStr false false wf items prior).file =
      some (walkFold wf items ⟨false, 0, [], 0, [LogEvent.startWalk]⟩).1.buffer ∧
    (∀ msg, (walkFold wf items ⟨false, 0, [], 0, [LogEvent.startWalk]⟩).2 = some msg →
      (processFiles datinDir datoutDir dateStr false false wf items prior).ret =
        Except.error ("error during directory walk: " ++ msg)) ∧
    ((walkFold wf items ⟨false, 0, [], 0, [LogEvent.startWalk]⟩).2 = none →
      (processFiles datinDir datoutDir dateStr false false wf items prior).ret =
        Except.ok (outputFileName datoutDir dateStr)) ∧
    (noErrItems items = true → wf 0 = true → goodFiles items ≠ [] →
      (processFiles datinDir datoutDir dateStr false false wf items prior).ret =
        Except.error ("error during directory walk: failed to write header to output file")) := by
  simp only [processFiles, Bool.false_eq_true, if_false]
  cases hp : walkFold wf items ⟨false, 0, [], 0, [LogEvent.startWalk]⟩ with
  | mk s e =>
    cases e with
    | some msg =>
      refine ⟨rfl, rfl, ?_, ?_, ?_⟩
      · intro m hm
        cases hm
        rfl
      · intro hnone; cases hnone
      · intro h hw0 hg
        obtain ⟨s1, habort⟩ := walkFold_firstWriteFails wf items
          ⟨false, 0, [], 0, [LogEvent.startWalk]⟩ h hg rfl hw0
        rw [habort] at hp
        cases hp
        rfl
    | none =>
      refine ⟨rfl, rfl, ?_, fun _ => rfl, ?_⟩
      · intro m hm; cases hm
      · intro h hw0 hg
        obtain ⟨s1, habort⟩ := walkFold_firstWriteFails wf items
          ⟨false, 0, [], 0, [LogEvent.startWalk]⟩ h hg rfl hw0
        rw [habort] at hp
        cases hp

/-- C4 witness: on the sample walk with a writer that fails on its first
call, the merge aborts with the header-write error wrapped as a walk
error. -/
theorem c4_write_error_fatal_flush_on_every_exit_witness :
    (processFiles "in" "out" "20250101" false false firstWriteFails sampleItems none).ret =
      Except.error ("error during directory walk: failed to write header to output file") :=
  (c4_write_error_fatal_flush_on_every_exit "in" "out" "20250101" firstWriteFails
    sampleItems none).2.2.2.2 (by decide) (by decide) (by decide)

/-- C7: in a run with no walk errors and no write failures, candidate
files that fail to open or to parse are logged with a warning and skipped:
the merge still returns success, the output equals `mergeOutput items`,
dropping the failing files from the walk does not change the merged
content, and each failing file leaves its warning in the log. -/
theorem c7_per_file_read_errors_not_fatal (datinDir datoutDir dateStr : String)
    (wf : Nat → Bool) (hnf : ∀ n, wf n = false)
    (items : List WalkItem) (h : noErrItems items = true)
    (prior : Option (List Record)) :
    (processFiles datinDir datoutDir dateStr false false wf items prior).ret =
      Except.ok (outputFileName datoutDir dateStr) ∧
    (processFiles datinDir datoutDir dateStr false false wf items prior).file =
      some (mergeOutput items) ∧
    mergeOutput (items.filter (fun it => !failingItem it)) = mergeOutput items ∧
    (∀ e : Entry, WalkItem.entry e ∈ items → e.isDir = false → isCsvName e.name = true →
      (e.parse = Parse.openFail →
        LogEvent.warnOpen e.path ∈
          (processFiles datinDir datoutDir dateStr false false wf items prior).log) ∧
      (e.parse = Parse.readFail →
        LogEvent.warnRead e.path ∈
          (processFiles datinDir datoutDir dateStr false false wf items prior).log)) := by
  rw [processFiles_noFail datinDir datoutDir dateStr wf hnf items h prior]
  refine ⟨rfl, rfl, by simp [mergeOutput, goodFiles_filter_failing], ?_⟩
  intro e he hd hc
  constructor
  · intro hp
    have hx : LogEvent.warnOpen e.path ∈ items.flatMap itemLog := by
      refine List.mem_flatMap.mpr ⟨WalkItem.entry e, he, ?_⟩
      simp [itemLog, entryLog, entryGood, entrySkipLog, hd, hc, hp]
    simp [hx]
  · intro hp
    have hx : LogEvent.warnRead e.path ∈ items.flatMap itemLog := by
      refine List.mem_flatMap.mpr ⟨WalkItem.entry e, he, ?_⟩
      simp [itemLog, entryLog, entryGood, entrySkipLog, hd, hc, hp]
    simp [hx]

/-- C7 witness: the sample run (which contains the unparsable `BAD.csv`)
succeeds, and the warning for `BAD.csv` appears in the log. -/
theorem c7_per_file_read_errors_not_fatal_witness :
    (processFiles "in" "out" "20250101" false false noWriteFail sampleItems none).ret =
      Except.ok (outputFileName "out" "20250101") ∧
    LogEvent.warnRead "in/BAD.csv" ∈
      (processFiles "in" "out" "20250101" false false noWriteFail sampleItems none).log :=
  ⟨(c7_per_file_read_errors_not_fatal "in" "out" "20250101" noWriteFail (fun _ => rfl)
      sampleItems (by decide) none).1,
   ((c7_per_file_read_errors_not_fatal "in" "out" "20250101" noWriteFail (fun _ => rfl)
      sampleItems (by decide) none).2.2.2 badEntry (by decide) (by decide) (by decide)).2 rfl⟩

/-- C8 counterexample: the value `processFiles` returns to its caller does
not carry the processed-file count.  Two successful runs that process 1
and 2 files respectively return the very same value to the caller, so the
count cannot be part of what is returned: it is only logged. -/
theorem c8_counterexample :
    (processFiles "in" "out" "20250101" false false noWriteFail
        [WalkItem.entry aaplEntry] none).filesProcessed = 1 ∧
    (processFiles "in" "out" "20250101" false false noWriteFail
        [WalkItem.entry aaplEntry, WalkItem.entry msftEntry] none).filesProcessed = 2 ∧
    (processFiles "in" "out" "20250101" false false noWriteFail
        [WalkItem.entry aaplEntry] none).ret =
      (processFiles "in" "out" "20250101" false false noWriteFail
        [WalkItem.entry aaplEntry, WalkItem.entry msftEntry] none).ret := by
  refine ⟨by decide, by decide, ?_⟩
  rw [processFiles_noFail "in" "out" "20250101" noWriteFail (fun _ => rfl) _ (by decide) none,
    processFiles_noFail "in" "out" "20250101" noWriteFail (fun _ => rfl) _ (by decide) none]

/-- C8 (amended): on every failure-free run the merge returns the output
file's path — and only the path — to its caller; the count of contributing
files is kept in the internal counter and recorded in the final log line,
not returned. -/
theorem c8_returns_path_and_logs_count (datinDir datoutDir dateStr : String)
    (wf : Nat → Bool) (hnf : ∀ n, wf n = false)
    (items : List WalkItem) (h : noErrItems items = true)
    (prior : Option (List Record)) :
    (processFiles datinDir datoutDir dateStr false false wf items prior).ret =
      Except.ok (outputFileName datoutDir dateStr) ∧
    (processFiles datinDir datoutDir dateStr false false wf items prior).filesProcessed =
      (goodFiles items).length ∧
    LogEvent.finished (goodFiles items).length (outputFileName datoutDir dateStr) ∈
      (processFiles datinDir datoutDir dateStr false false wf items prior).log := by
  rw [processFiles_noFail datinDir datoutDir dateStr wf hnf items h prior]
  refine ⟨rfl, rfl, ?_⟩
  simp

/-- C8 witness: the sample run returns the output path and logs the count
of 2 contributing files. -/
theorem c8_returns_path_and_logs_count_witness :
    (processFiles "in" "out" "20250101" false false noWriteFail sampleItems none).ret =
      Except.ok (outputFileName "out" "20250101") ∧
    LogEvent.finished (goodFiles sampleItems).length (outputFileName "out" "20250101") ∈
      (processFiles "in" "out" "20250101" false false noWriteFail sampleItems none).log :=
  ⟨(c8_returns_path_and_logs_count "in" "out" "20250101" noWriteFail (fun _ => rfl)
      sampleItems (by decide) none).1,
   (c8_returns_path_and_logs_count "in" "out" "20250101" noWriteFail (fun _ => rfl)
      sampleItems (by decide) none).2.2⟩

/-- C9: the merged output file is `extract_<date>.csv` under the output
root; `os.Create` truncates, so with setup succeeding the whole merge
outcome is independent of whatever content the output path held before
the run (a prior same-day result is silently overwritten), and a
successful run returns exactly that path. -/
theorem c9_output_name_truncate_overwrite (datinDir datoutDir dateStr : String)
    (wf : Nat → Bool) (items : List WalkItem)
    (prior prior2 : Option (List Record)) :
    outputFileName datoutDir dateStr = datoutDir ++ "/extract_" ++ dateStr ++ ".csv" ∧
    processFiles datinDir datoutDir dateStr false false wf items prior =
      processFiles datinDir datoutDir dateStr false false wf items prior2 ∧
    ((walkFold wf items ⟨false, 0, [], 0, [LogEvent.startWalk]⟩).2 = none →
      (processFiles datinDir datoutDir dateStr false false wf items prior).ret =
        Except.ok (outputFileName datoutDir dateStr)) := by
  refine ⟨rfl, ?_, ?_⟩
  · simp only [processFiles, Bool.false_eq_true, if_false]
  · intro hnone
    simp only [processFiles, Bool.false_eq_true, if_false]
    cases hp : walkFold wf items ⟨false, 0, [], 0, [LogEvent.startWalk]⟩ with
    | mk s e =>
      rw [hp] at hnone
      cases e with
      | some msg => cases hnone
      | none => rfl

/-- C9 witness: with a stale previous merged file on disk, the run
produces the same result as with none, and returns the dated path. -/
theorem c9_output_name_truncate_overwrite_witness :
    processFiles "in" "out" "20250101" false false noWriteFail sampleItems
        (some [["stale"]]) =
      processFiles "in" "out" "20250101" false false noWriteFail sampleItems none ∧
    (processFiles "in" "out" "20250101" false false noWriteFail sampleItems
        (some [["stale"]])).ret = Except.ok (outputFileName "out" "20250101") :=
  ⟨(c9_output_name_truncate_overwrite "in" "out" "20250101" noWriteFail sampleItems
      (some [["stale"]]) none).2.1,
   (c9_output_name_truncate_overwrite "in" "out" "20250101" noWriteFail sampleItems
      (some [["stale"]]) none).2.2 (by decide)⟩

/-- The archive source loop characterized: it moves exactly the
non-directory entries whose rename succeeds, and warns (leaving the file
in place) for exactly the non-directory entries whose rename fails. -/
theorem archiveSources_spec (datinDir subDir : String) (renameFails : String → Bool) :
    ∀ entries : List DirEntry,
      archiveSources datinDir subDir renameFails entries =
        ((entries.filter (fun e => !e.isDir && !(renameFails e.name))).map
            (fun e => ArchEvent.moveSource (datinDir ++ "/" ++ e.name)
              (subDir ++ "/" ++ e.name)),
         (entries.filter (fun e => !e.isDir && renameFails e.name)).map
            (fun e => datinDir ++ "/" ++ e.name),
         (entries.filter (fun e => !e.isDir && !(renameFails e.name))).map
            (fun e => e.name)) := by
  intro entries
  induction entries with
  | nil => rfl
  | cons e rest ih =>
    obtain ⟨nm, d⟩ := e
    cases d <;> by_cases hr : renameFails nm <;>
      simp [archiveSources, ih, List.filter_cons, hr]

/-- C6: the merged file is moved into the fresh archive subdirectory
before any source file (structurally: the event sequence starts with the
subdirectory creation, then the merged-file move, then the source moves);
a failed merged-file move is fatal and no source file is moved; a failed
individual source-file move only produces a warning and the archive stage
still returns success after attempting every entry. -/
theorem c6_archive_order_and_fatality (archDir mergedFilePath datinDir ts : String)
    (readDirFails : Bool) (topEntries : List DirEntry)
    (renameFails : String → Bool) :
    (archiveAndCleanup archDir mergedFilePath datinDir ts false true readDirFails
        topEntries renameFails =
      { ret := Except.error "failed to archive merged file",
        events := [ArchEvent.mkArchiveDir (archiveSubDir archDir ts)],
        warnings := [], movedSources := [] }) ∧
    (archiveAndCleanup archDir mergedFilePath datinDir ts false false false
        topEntries renameFails =
      { ret := Except.ok (),
        events := ArchEvent.mkArchiveDir (archiveSubDir archDir ts) ::
          ArchEvent.moveMerged mergedFilePath
            (archiveSubDir archDir ts ++ "/" ++ baseName mergedFilePath) ::
          (topEntries.filter (fun e => !e.isDir && !(renameFails e.name))).map
            (fun e => ArchEvent.moveSource (datinDir ++ "/" ++ e.name)
              (archiveSubDir archDir ts ++ "/" ++ e.name)),
        warnings := (topEntries.filter (fun e => !e.isDir && renameFails e.name)).map
          (fun e => datinDir ++ "/" ++ e.name),
        movedSources := (topEntries.filter (fun e => !e.isDir && !(renameFails e.name))).map
          (fun e => e.name) }) := by
  constructor
  · rfl
  · simp only [archiveAndCleanup, Bool.false_eq_true, if_false,
      archiveSources_spec datinDir (archiveSubDir archDir ts) renameFails topEntries]

/-- C10: when no candidate file yields at least 2 records (and nothing
else fails), the merge still succeeds with zero files processed, the
output file is completely empty (no header row), and the archive stage
still runs: it returns success and moves the empty merged file into the
new archive subdirectory. -/
theorem c10_empty_merge_still_archives
    (datinDir datoutDir archDir dateStr ts : String)
    (wf : Nat → Bool) (hnf : ∀ n, wf n = false)
    (items : List WalkItem) (h : noErrItems items = true)
    (hg : goodFiles items = []) (prior : Option (List Record))
    (topEntries : List DirEntry) (renameFails : String → Bool) :
    (mainRun datinDir datoutDir archDir dateStr ts false false wf items prior
        false false false topEntries renameFails).merge.ret =
      Except.ok (outputFileName datoutDir dateStr) ∧
    (mainRun datinDir datoutDir archDir dateStr ts false false wf items prior
        false false false topEntries renameFails).merge.filesProcessed = 0 ∧
    (mainRun datinDir datoutDir archDir dateStr ts false false wf items prior
        false false false topEntries renameFails).merge.file = some [] ∧
    ∃ a, (mainRun datinDir datoutDir archDir dateStr ts false false wf items prior
        false false false topEntries renameFails).archive = some a ∧
      a.ret = Except.ok () ∧
      ArchEvent.moveMerged (outputFileName datoutDir dateStr)
        (archiveSubDir archDir ts ++ "/" ++ baseName (outputFileName datoutDir dateStr)) ∈
        a.events := by
  have hm := processFiles_noFail datinDir datoutDir dateStr wf hnf items h prior
  rw [mainRun]
  simp only [hm, hg, List.length_nil, mergeOutput, mergeRows]
  refine ⟨trivial, trivial, trivial, ?_⟩
  refine ⟨_, rfl, ?_, ?_⟩
  · simp [archiveAndCleanup]
  · simp [archiveAndCleanup]

/-- C10 witness: a run whose only candidates are a directory, a
header-only file and an unparsable file merges nothing, writes an empty
output file, and still archives it. -/
theorem c10_empty_merge_still_archives_witness :
    (mainRun "in" "out" "arch" "20250101" "20250101_120000" false false noWriteFail
        [WalkItem.entry rootDirEntry, WalkItem.entry headerOnlyEntry, WalkItem.entry badEntry]
        none false false false [⟨"HDR.csv", false⟩, ⟨"BAD.csv", false⟩]
        (fun _ => false)).merge.file = some [] ∧
    ∃ a, (mainRun "in" "out" "arch" "20250101" "20250101_120000" false false noWriteFail
        [WalkItem.entry rootDirEntry, WalkItem.entry headerOnlyEntry, WalkItem.entry badEntry]
        none false false false [⟨"HDR.csv", false⟩, ⟨"BAD.csv", false⟩]
        (fun _ => false)).archive = some a ∧
      a.ret = Except.ok () ∧
      ArchEvent.moveMerged (outputFileName "out" "20250101")
        (archiveSubDir "arch" "20250101_120000" ++ "/" ++
          baseName (outputFileName "out" "20250101")) ∈ a.events :=
  ⟨(c10_empty_merge_still_archives "in" "out" "arch" "20250101" "20250101_120000"
      noWriteFail (fun _ => rfl) _ (by decide) (by decide) none _ (fun _ => false)).2.2.1,
   (c10_empty_merge_still_archives "in" "out" "arch" "20250101" "20250101_120000"
      noWriteFail (fun _ => rfl) _ (by decide) (by decide) none _ (fun _ => false)).2.2.2⟩

end CsvMerger
